import Mathlib

/-
  Verification of the predicate-filtered similarity-search subsystem of the
  dog_finder service (app/routers/dogfinder.py, app/DTO/dog_dto.py).

  The filter algebra (app/models/predicates.py), the value-kind tags
  (app/helpers/weaviate_helper.py) and the DogSearchRequest viewmodel
  (app/viewmodels/dog_viewmodel.py) are not part of the provided sources;
  they are modelled from the specification (spec.md §3, §4.1, §4.2, §6) and
  are marked as such below.  Everything else is a direct translation of
  app/routers/dogfinder.py.
-/

namespace DogFinder

/-- DogType enumeration from app/DTO/dog_dto.py: FOUND = "found", LOST = "lost". -/
inductive DogType
  | found
  | lost
  deriving DecidableEq, Repr

/-- The string value carried by a DogType member (str-Enum .value in Python). -/
def DogType.value : DogType → String
  | .found => "found"
  | .lost => "lost"

/-- DogSex enumeration from app/DTO/dog_dto.py: MALE = "male", FEMALE = "female". -/
inductive DogSex
  | male
  | female
  deriving DecidableEq, Repr

/-- The string value carried by a DogSex member. -/
def DogSex.value : DogSex → String
  | .male => "male"
  | .female => "female"

/-- Modelled from the spec: the size enumeration used by the search viewmodel
(app/viewmodels/dog_viewmodel.py is not under src/); build_filter only reads
its string .value, so it is an opaque carrier of that string. -/
structure DogSize where
  value : String
  deriving DecidableEq

/-- Modelled from the spec: the color enumeration used by the search viewmodel
(not under src/); build_filter only reads its string .value. -/
structure DogColor where
  value : String
  deriving DecidableEq

/-- Modelled from the spec: value-kind tags of app/helpers/weaviate_helper.py
(not under src/), per spec.md §3: valueText, valueBoolean, valueNumber, valueDate. -/
inductive FilterValueTypes
  | valueText
  | valueBoolean
  | valueNumber
  | valueDate
  deriving DecidableEq, BEq, Repr

/-- A typed comparison operand of a Predicate (spec.md §3): the claims only
exercise string and boolean operands. -/
inductive FilterValue
  | text (s : String)
  | boolean (b : Bool)
  deriving DecidableEq, Repr

/-- Modelled from the spec: a Predicate of app/models/predicates.py (not under
src/), per spec.md §3/§4.1 — constructed with (path, operator, value, valueKind). -/
structure Predicate where
  path : List String
  operator : String
  value : FilterValue
  valueType : FilterValueTypes
  deriving DecidableEq, Repr

/-- Modelled from the spec: the Filter expression tree of
app/models/predicates.py (not under src/), per spec.md §3 — variants
Leaf(Predicate), And(operands), Or(operands). -/
inductive Filter
  | leaf (p : Predicate)
  | and (operands : List Filter)
  | or (operands : List Filter)

/-- Error kinds raised by the collaborators and by the filter algebra
(spec.md §7); one Python exception hierarchy modelled as one inductive. -/
inductive Err
  | invalidFilter
  | imageError (msg : String)
  | embedError (msg : String)
  | vdbError (msg : String)
  | indexError
  | attributeError
  deriving DecidableEq, Repr

/-- The human-readable text of an error, standing in for Python's str(e). -/
def Err.descr : Err → String
  | .invalidFilter => "InvalidFilterError"
  | .imageError m => m
  | .embedError m => m
  | .vdbError m => m
  | .indexError => "IndexError"
  | .attributeError => "AttributeError"

/-- Modelled from the spec: and_ of app/models/predicates.py (not under src/),
per spec.md §4.2 — wraps one or more operands into an And node, failing with
InvalidFilterError on zero operands. -/
def and_ : List Filter → Except Err Filter
  | [] => Except.error Err.invalidFilter
  | f :: fs => Except.ok (Filter.and (f :: fs))

/-- Modelled from the spec: the serialized (to_dict) form of a Filter,
per the wire contract of spec.md §6. -/
inductive FilterDict
  | leafDict (path : List String) (operator : String) (value : FilterValue)
  | nodeDict (operator : String) (operands : List FilterDict)

mutual

/-- Modelled from the spec: recursive serialization of a Filter (spec.md §4.2/§6). -/
def Filter.to_dict : Filter → FilterDict
  | .leaf p => .leafDict p.path p.operator p.value
  | .and ops => .nodeDict "And" (Filter.serialize_operands ops)
  | .or ops => .nodeDict "Or" (Filter.serialize_operands ops)

/-- Serialization of an operand list, preserving order (spec.md §4.2). -/
def Filter.serialize_operands : List Filter → List FilterDict
  | [] => []
  | f :: fs => Filter.to_dict f :: Filter.serialize_operands fs

end

/-- Modelled from the spec: the Search Request schema
(DogSearchRequest of app/viewmodels/dog_viewmodel.py, not under src/), with the
fields read and written by app/routers/dogfinder.py and described in spec.md §3. -/
structure DogSearchRequest where
  type : Option DogType
  breed : Option String
  sex : Option DogSex
  size : Option DogSize
  color : Option DogColor
  chipNumber : Option String
  name : Option String
  location : Option String
  base64Image : String
  top : Nat
  isVerified : Option Bool
  return_properties : List String

/-- The implicit predicate appended unconditionally at dogfinder.py line 499:
Predicate(["isMatched"], "Equal", False, FilterValueTypes.valueBoolean). -/
def is_matched_predicate : Predicate :=
  { path := ["isMatched"], operator := "Equal",
    value := FilterValue.boolean false,
    valueType := FilterValueTypes.valueBoolean }

/-- One conditional append of build_filter (dogfinder.py lines 461-491): if the
optional attribute value is present, a single Equal text predicate on the field;
otherwise nothing. -/
def opt_predicate (field : String) (v : Option String) : List Predicate :=
  match v with
  | some s => [{ path := [field], operator := "Equal",
                 value := FilterValue.text s,
                 valueType := FilterValueTypes.valueText }]
  | none => []

/-- The attribute predicates accumulated by build_filter (dogfinder.py lines
459-491), in source order: type, breed, sex, size, color, chipNumber, name,
location.  Enum-typed attributes contribute their string .value. -/
def attr_predicates (r : DogSearchRequest) : List Predicate :=
  opt_predicate "type" (r.type.map DogType.value)
  ++ opt_predicate "breed" r.breed
  ++ opt_predicate "sex" (r.sex.map DogSex.value)
  ++ opt_predicate "size" (r.size.map DogSize.value)
  ++ opt_predicate "color" (r.color.map DogColor.value)
  ++ opt_predicate "chipNumber" r.chipNumber
  ++ opt_predicate "name" r.name
  ++ opt_predicate "location" r.location

/-- The full predicate list of build_filter (dogfinder.py lines 459-499): the
attribute predicates followed by the unconditional isMatched predicate.  The
isVerified predicate of lines 495-496 is commented out in the source and is
therefore absent here. -/
def search_predicates (r : DogSearchRequest) : List Predicate :=
  attr_predicates r ++ [is_matched_predicate]

/-- build_filter (dogfinder.py lines 455-506): collect the predicates; if the
list is non-empty return and_ over them (predicates coerced to Leaf filters),
else return the None sentinel.  and_ may raise, hence the Except layer. -/
def build_filter (r : DogSearchRequest) : Except Err (Option Filter) :=
  let predicates := search_predicates r
  if predicates.length > 0 then
    (and_ (predicates.map Filter.leaf)).map some
  else
    Except.ok none

/-- Opaque carrier for a decoded PIL image (external collaborator's type). -/
structure PILImage where
  data : String
  deriving DecidableEq, Repr

/-- Opaque carrier for a query embedding (external collaborator's type). -/
structure Embedding where
  data : List Int
  deriving DecidableEq, Repr

/-- Opaque carrier for one result record returned by the vector store. -/
structure DogRecord where
  data : String
  deriving DecidableEq, Repr

/-- The argument bundle of one vector-store query call
(dogfinder.py line 522): class name, embedding, limit, offset, serialized
filter and the requested return properties. -/
structure QueryArgs where
  class_name : String
  query_embedding : Embedding
  limit : Nat
  offset : Option Nat
  filter : FilterDict
  properties : List String

/-- The external collaborators of the orchestrator (spec.md §6), as fallible
functions: image resizing (resize_image_and_convert_to_format), image decoding
(create_pil_images, per image), embedding (embed_query) and the vector-store
client's query method. -/
structure Env where
  resize_image : String → Except Err (String × String)
  create_pil_image : String → Except Err PILImage
  embed_query : PILImage → Except Err Embedding
  vdb_query : QueryArgs → Except Err (List DogRecord)

/-- create_pil_images of app/helpers/image_helper.py at its use site: decode
each base64 string of the list into a PIL image, propagating failures. -/
def create_pil_images (env : Env) : List String → Except Err (List PILImage)
  | [] => Except.ok []
  | s :: rest => do
    let img ← env.create_pil_image s
    let imgs ← create_pil_images env rest
    Except.ok (img :: imgs)

/-- handle_uploaded_images (dogfinder.py lines 526-555) for base64-string
inputs (the branch the search endpoints take): resize and convert each image,
returning (base64, contentType) pairs. -/
def handle_uploaded_images (env : Env) : List String → Except Err (List (String × String))
  | [] => Except.ok []
  | s :: rest => do
    let pair ← env.resize_image s
    let pairs ← handle_uploaded_images env rest
    Except.ok (pair :: pairs)

/-- query_vector_db (dogfinder.py lines 510-524): decode the request image,
embed it, build the filter, serialize it (to_dict — a None filter would fault
here, modelled as attributeError), and invoke the vector-store query with
class "Dog", the embedding, limit = top, offset = None and the request's
return properties. -/
def query_vector_db (env : Env) (r : DogSearchRequest) : Except Err (List DogRecord) := do
  let images ← create_pil_images env [r.base64Image]
  let query_image ← match images.head? with
    | some img => Except.ok img
    | none => Except.error Err.indexError
  let query_embedding ← env.embed_query query_image
  let filterOpt ← build_filter r
  let filterDict ← match filterOpt with
    | some f => Except.ok (Filter.to_dict f)
    | none => Except.error Err.attributeError
  env.vdb_query { class_name := "Dog", query_embedding := query_embedding,
                  limit := r.top, offset := none, filter := filterDict,
                  properties := r.return_properties }

/-- The response envelope observed by the transport layer (APIResponse of
app/viewmodels/api_response.py at its use sites): status code, message, and
the data payload's total and results fields. -/
structure APIResponse where
  status_code : Nat
  message : String
  total : Nat
  results : List DogRecord
  deriving Repr

/-- The request normalization of search_in_found_dogs (dogfinder.py lines
219-221): type := FOUND, base64Image := processed image, isVerified := True. -/
def found_request (b64 : String) (r : DogSearchRequest) : DogSearchRequest :=
  { r with type := some DogType.found, base64Image := b64, isVerified := some true }

/-- The request normalization of search_in_lost_dogs (dogfinder.py lines
241-243): type := LOST, base64Image := processed image, isVerified := True. -/
def lost_request (b64 : String) (r : DogSearchRequest) : DogSearchRequest :=
  { r with type := some DogType.lost, base64Image := b64, isVerified := some true }

/-- The fallible body of the search_in_found_dogs try block (dogfinder.py
lines 214-224): process the uploaded image, normalize the request, query the
vector db.  An empty processed-image list would fault at the tuple unpacking,
modelled as indexError. -/
def found_dogs_pipeline (env : Env) (r : DogSearchRequest) : Except Err (List DogRecord) := do
  let handled ← handle_uploaded_images env [r.base64Image]
  let base64Image0 ← match handled.head? with
    | some pair => Except.ok pair.1
    | none => Except.error Err.indexError
  query_vector_db env (found_request base64Image0 r)

/-- The fallible body of the search_in_lost_dogs try block (dogfinder.py
lines 236-247). -/
def lost_dogs_pipeline (env : Env) (r : DogSearchRequest) : Except Err (List DogRecord) := do
  let handled ← handle_uploaded_images env [r.base64Image]
  let base64Image0 ← match handled.head? with
    | some pair => Except.ok pair.1
    | none => Except.error Err.indexError
  query_vector_db env (lost_request base64Image0 r)

/-- The success envelope built at dogfinder.py line 226/249. -/
def success_response (results : List DogRecord) : APIResponse :=
  { status_code := 200,
    message := "Queried " ++ toString results.length ++ " results from the vecotrdb",
    total := results.length,
    results := results }

/-- The failure envelope built in the except branch at dogfinder.py
line 229/252: status 500, message with the error text, total 0, results []. -/
def failure_response (e : Err) : APIResponse :=
  { status_code := 500,
    message := "Error while querying the vecotrdb: " ++ Err.descr e,
    total := 0,
    results := [] }

/-- search_in_found_dogs (dogfinder.py lines 212-232): run the try-block
pipeline; every raised error is caught and mapped to the failure envelope, so
the endpoint is a total function into APIResponse. -/
def search_in_found_dogs (env : Env) (r : DogSearchRequest) : APIResponse :=
  match found_dogs_pipeline env r with
  | Except.ok results => success_response results
  | Except.error e => failure_response e

/-- search_in_lost_dogs (dogfinder.py lines 234-255). -/
def search_in_lost_dogs (env : Env) (r : DogSearchRequest) : APIResponse :=
  match lost_dogs_pipeline env r with
  | Except.ok results => success_response results
  | Except.error e => failure_response e

/-- Modelled from the spec: the shared orchestration path of spec.md §4.4 —
force the record-type discriminator and the verification flag, then delegate
to query_vector_db; the two specialized endpoints are this path at fixed
DogType values. -/
def shared_search_pipeline (env : Env) (t : DogType) (r : DogSearchRequest) : Except Err (List DogRecord) := do
  let handled ← handle_uploaded_images env [r.base64Image]
  let base64Image0 ← match handled.head? with
    | some pair => Except.ok pair.1
    | none => Except.error Err.indexError
  query_vector_db env { r with type := some t, base64Image := base64Image0, isVerified := some true }

/-- Modelled from the spec: the full shared endpoint (spec.md §4.4), mapping
pipeline success and failure to the uniform response envelopes. -/
def search_shared (env : Env) (t : DogType) (r : DogSearchRequest) : APIResponse :=
  match shared_search_pipeline env t r with
  | Except.ok results => success_response results
  | Except.error e => failure_response e

/-- An all-absent search request used to instantiate universally quantified
theorems at a concrete input. -/
def sample_request : DogSearchRequest :=
  { type := none, breed := none, sex := none, size := none, color := none,
    chipNumber := none, name := none, location := none,
    base64Image := "img", top := 10, isVerified := none,
    return_properties := ["breed", "color"] }

/-- A stub environment in which every collaborator succeeds. -/
def stub_env : Env :=
  { resize_image := fun s => Except.ok (s ++ "_resized", "webp"),
    create_pil_image := fun s => Except.ok { data := s },
    embed_query := fun _ => Except.ok { data := [1, 2, 3] },
    vdb_query := fun _ => Except.ok [{ data := "dog1" }, { data := "dog2" }] }

/-- A stub environment in which image resizing fails. -/
def failing_env : Env :=
  { stub_env with resize_image := fun _ => Except.error (Err.imageError "bad image") }

/-! Helper lemmas shared by the claim theorems. -/

lemma search_predicates_ne_nil (r : DogSearchRequest) : search_predicates r ≠ [] := by
  simp [search_predicates]

lemma build_filter_eq (r : DogSearchRequest) :
    build_filter r =
      Except.ok (some (Filter.and ((search_predicates r).map Filter.leaf))) := by
  unfold build_filter
  rw [if_pos (List.length_pos.mpr (search_predicates_ne_nil r))]
  obtain ⟨p, ps, hcons⟩ := List.exists_cons_of_ne_nil (search_predicates_ne_nil r)
  rw [hcons]
  simp [and_, Except.map]

lemma opt_predicate_length (field : String) (v : Option String) :
    (opt_predicate field v).length = if v.isSome then 1 else 0 := by
  cases v <;> rfl

lemma isSome_option_map {α β : Type} (f : α → β) (o : Option α) :
    (o.map f).isSome = o.isSome := by
  cases o <;> rfl

lemma getLast_append_singleton {α : Type} (l : List α) (a : α) :
    (l ++ [a]).getLast? = some a := by
  induction l with
  | nil => rfl
  | cons x xs ih =>
    rw [List.cons_append, List.getLast?_cons, ih]
    cases xs <;> rfl

lemma mem_opt_predicate {p : Predicate} {field : String} {v : Option String}
    (h : p ∈ opt_predicate field v) : p.path = [field] := by
  cases v with
  | none => simp [opt_predicate] at h
  | some s =>
    simp [opt_predicate] at h
    rw [h]

lemma mem_attr_predicates_path {r : DogSearchRequest} {p : Predicate}
    (hp : p ∈ attr_predicates r) :
    p.path = ["type"] ∨ p.path = ["breed"] ∨ p.path = ["sex"] ∨
    p.path = ["size"] ∨ p.path = ["color"] ∨ p.path = ["chipNumber"] ∨
    p.path = ["name"] ∨ p.path = ["location"] := by
  simp only [attr_predicates, List.mem_append] at hp
  rcases hp with ((((((h | h) | h) | h) | h) | h) | h) | h
  · exact Or.inl (mem_opt_predicate h)
  · exact Or.inr (Or.inl (mem_opt_predicate h))
  · exact Or.inr (Or.inr (Or.inl (mem_opt_predicate h)))
  · exact Or.inr (Or.inr (Or.inr (Or.inl (mem_opt_predicate h))))
  · exact Or.inr (Or.inr (Or.inr (Or.inr (Or.inl (mem_opt_predicate h)))))
  · exact Or.inr (Or.inr (Or.inr (Or.inr (Or.inr (Or.inl (mem_opt_predicate h))))))
  · exact Or.inr (Or.inr (Or.inr (Or.inr (Or.inr (Or.inr (Or.inl (mem_opt_predicate h)))))))
  · exact Or.inr (Or.inr (Or.inr (Or.inr (Or.inr (Or.inr (Or.inr (mem_opt_predicate h)))))))

/-- The number of present optional attributes of a request (the k of
spec.md §8), over the eight fields inspected by build_filter. -/
def present_count (r : DogSearchRequest) : Nat :=
  (if r.type.isSome then 1 else 0) + (if r.breed.isSome then 1 else 0)
  + (if r.sex.isSome then 1 else 0) + (if r.size.isSome then 1 else 0)
  + (if r.color.isSome then 1 else 0) + (if r.chipNumber.isSome then 1 else 0)
  + (if r.name.isSome then 1 else 0) + (if r.location.isSome then 1 else 0)

lemma search_predicates_length (r : DogSearchRequest) :
    (search_predicates r).length = present_count r + 1 := by
  simp only [search_predicates, attr_predicates, List.length_append,
    opt_predicate_length, isSome_option_map, List.length_singleton, present_count]

/-! Claim theorems. -/

/-- Claim C1: build_filter appends the implicit Equal(isMatched, false)
predicate unconditionally — the predicate list always ends with it and is
never empty — and therefore build_filter never returns the None/absent-filter
sentinel: it always returns an And filter over the accumulated predicates. -/
theorem c1_implicit_is_matched_always_present (r : DogSearchRequest) :
    build_filter r =
      Except.ok (some (Filter.and ((search_predicates r).map Filter.leaf)))
    ∧ (search_predicates r).getLast? = some is_matched_predicate
    ∧ search_predicates r ≠ [] :=
  ⟨build_filter_eq r,
   getLast_append_singleton (attr_predicates r) is_matched_predicate,
   search_predicates_ne_nil r⟩

/-- Claim C2: for a request with k present optional attributes, build_filter
returns an And node with exactly k + 1 operands — one Equal predicate per
present attribute plus the implicit isMatched predicate. -/
theorem c2_operand_count (r : DogSearchRequest) :
    build_filter r =
      Except.ok (some (Filter.and ((search_predicates r).map Filter.leaf)))
    ∧ ((search_predicates r).map Filter.leaf).length = present_count r + 1 :=
  ⟨build_filter_eq r, by rw [List.length_map, search_predicates_length]⟩

/-- Claim C6: for a request with no optional attribute set, build_filter
returns an And node with exactly one operand, the Leaf of
Equal(isMatched, false) — not collapsed to a bare Leaf. -/
theorem c6_empty_request_filter (r : DogSearchRequest)
    (ht : r.type = none) (hb : r.breed = none) (hsx : r.sex = none)
    (hsz : r.size = none) (hc : r.color = none) (hch : r.chipNumber = none)
    (hn : r.name = none) (hl : r.location = none) :
    build_filter r = Except.ok (some (Filter.and [Filter.leaf is_matched_predicate])) := by
  rw [build_filter_eq r]
  simp [search_predicates, attr_predicates, opt_predicate, ht, hb, hsx, hsz, hc, hch, hn, hl]

/-- Witness for C6 at the all-absent sample request. -/
theorem c6_empty_request_filter_witness :
    sample_request.type = none ∧ sample_request.breed = none
    ∧ sample_request.sex = none ∧ sample_request.size = none
    ∧ sample_request.color = none ∧ sample_request.chipNumber = none
    ∧ sample_request.name = none ∧ sample_request.location = none
    ∧ build_filter sample_request =
        Except.ok (some (Filter.and [Filter.leaf is_matched_predicate])) :=
  ⟨rfl, rfl, rfl, rfl, rfl, rfl, rfl, rfl,
   c6_empty_request_filter sample_request rfl rfl rfl rfl rfl rfl rfl rfl⟩

/-- Claim C9: and_ with zero operands fails with InvalidFilterError, and and_
with one or more operands returns an And node over exactly those operands. -/
theorem c9_and_zero_operands_fails :
    and_ [] = Except.error Err.invalidFilter
    ∧ ∀ ops : List Filter, ops ≠ [] → and_ ops = Except.ok (Filter.and ops) := by
  refine ⟨rfl, fun ops hne => ?_⟩
  cases ops with
  | nil => exact absurd rfl hne
  | cons f fs => rfl

/-- Witness for C9 at a concrete singleton operand list. -/
theorem c9_and_zero_operands_fails_witness :
    [Filter.leaf is_matched_predicate] ≠ ([] : List Filter)
    ∧ and_ [Filter.leaf is_matched_predicate] =
        Except.ok (Filter.and [Filter.leaf is_matched_predicate]) :=
  ⟨List.cons_ne_nil _ _,
   c9_and_zero_operands_fails.2 [Filter.leaf is_matched_predicate] (List.cons_ne_nil _ _)⟩

/-- Claim C3: every error raised inside the try block of the two search
endpoints (image handling, embedding, filter construction or the vector-store
call) is caught and mapped to the uniform failure envelope: status 500, an
error message, total 0 and an empty result list.  The endpoints are total
functions into APIResponse, so no fault reaches the transport layer. -/
theorem c3_errors_mapped_to_uniform_failure (env : Env) (r : DogSearchRequest) (e : Err) :
    (found_dogs_pipeline env r = Except.error e →
      search_in_found_dogs env r =
        { status_code := 500,
          message := "Error while querying the vecotrdb: " ++ Err.descr e,
          total := 0, results := [] })
    ∧ (lost_dogs_pipeline env r = Except.error e →
      search_in_lost_dogs env r =
        { status_code := 500,
          message := "Error while querying the vecotrdb: " ++ Err.descr e,
          total := 0, results := [] }) := by
  refine ⟨fun h => ?_, fun h => ?_⟩
  · unfold search_in_found_dogs
    rw [h]
    rfl
  · unfold search_in_lost_dogs
    rw [h]
    rfl

/-- Witness for C3: in an environment whose image resizing fails, both
endpoints return the uniform 500 envelope. -/
theorem c3_errors_mapped_to_uniform_failure_witness :
    found_dogs_pipeline failing_env sample_request =
      Except.error (Err.imageError "bad image")
    ∧ search_in_found_dogs failing_env sample_request =
        { status_code := 500,
          message := "Error while querying the vecotrdb: "
            ++ Err.descr (Err.imageError "bad image"),
          total := 0, results := [] }
    ∧ lost_dogs_pipeline failing_env sample_request =
        Except.error (Err.imageError "bad image")
    ∧ search_in_lost_dogs failing_env sample_request =
        { status_code := 500,
          message := "Error while querying the vecotrdb: "
            ++ Err.descr (Err.imageError "bad image"),
          total := 0, results := [] } :=
  ⟨rfl,
   (c3_errors_mapped_to_uniform_failure failing_env sample_request
     (Err.imageError "bad image")).1 rfl,
   rfl,
   (c3_errors_mapped_to_uniform_failure failing_env sample_request
     (Err.imageError "bad image")).2 rfl⟩

/-- Claim C4: the two specialized endpoints are the shared orchestration path
with the record type forced to found resp. lost (and isVerified forced to
true); they differ only in the forced DogType value. -/
theorem c4_endpoints_are_shared_path (env : Env) (r : DogSearchRequest) :
    search_in_found_dogs env r = search_shared env DogType.found r
    ∧ search_in_lost_dogs env r = search_shared env DogType.lost r :=
  ⟨rfl, rfl⟩

/-- Claim C5: whenever image decoding and embedding succeed, query_vector_db
returns exactly what one vector-store query call returns — invoked with the
query embedding, the serialized filter from build_filter, limit = top, no
offset and the request's return-property list — with no re-ranking,
re-filtering or deduplication of the result list. -/
theorem c5_single_unmodified_query_call (env : Env) (r : DogSearchRequest)
    (img : PILImage) (emb : Embedding)
    (h1 : env.create_pil_image r.base64Image = Except.ok img)
    (h2 : env.embed_query img = Except.ok emb) :
    query_vector_db env r =
      env.vdb_query { class_name := "Dog", query_embedding := emb,
                      limit := r.top, offset := none,
                      filter := Filter.to_dict
                        (Filter.and ((search_predicates r).map Filter.leaf)),
                      properties := r.return_properties } := by
  have hc : create_pil_images env [r.base64Image] = Except.ok [img] := by
    simp only [create_pil_images]
    rw [h1]
    rfl
  have step1 : query_vector_db env r = (do
      let query_embedding ← env.embed_query img
      let filterOpt ← build_filter r
      let filterDict ← match filterOpt with
        | some f => Except.ok (Filter.to_dict f)
        | none => Except.error Err.attributeError
      env.vdb_query { class_name := "Dog", query_embedding := query_embedding,
                      limit := r.top, offset := none, filter := filterDict,
                      properties := r.return_properties }) := by
    unfold query_vector_db
    rw [hc]
    rfl
  rw [step1, h2]
  have step2 : (do
      let filterOpt ← build_filter r
      let filterDict ← match filterOpt with
        | some f => Except.ok (Filter.to_dict f)
        | none => Except.error Err.attributeError
      env.vdb_query { class_name := "Dog", query_embedding := emb,
                      limit := r.top, offset := none, filter := filterDict,
                      properties := r.return_properties }) =
      env.vdb_query { class_name := "Dog", query_embedding := emb,
                      limit := r.top, offset := none,
                      filter := Filter.to_dict
                        (Filter.and ((search_predicates r).map Filter.leaf)),
                      properties := r.return_properties } := by
    rw [build_filter_eq r]
    rfl
  rw [← step2]
  rfl

/-- Witness for C5 in the all-succeeding stub environment. -/
theorem c5_single_unmodified_query_call_witness :
    stub_env.create_pil_image sample_request.base64Image =
      Except.ok { data := "img" }
    ∧ stub_env.embed_query { data := "img" } = Except.ok { data := [1, 2, 3] }
    ∧ query_vector_db stub_env sample_request =
        stub_env.vdb_query { class_name := "Dog",
                             query_embedding := { data := [1, 2, 3] },
                             limit := sample_request.top, offset := none,
                             filter := Filter.to_dict
                               (Filter.and ((search_predicates sample_request).map Filter.leaf)),
                             properties := sample_request.return_properties } :=
  ⟨rfl, rfl,
   c5_single_unmodified_query_call stub_env sample_request
     { data := "img" } { data := [1, 2, 3] } rfl rfl⟩

/-- Claim C7: the filter built by build_filter contains no predicate on the
isVerified field (the source comments that code out), and build_filter does
not depend on the request's isVerified value at all — so the endpoints'
forcing of isVerified has no effect on the filter. -/
theorem c7_no_is_verified_predicate (r : DogSearchRequest) (v : Option Bool) :
    build_filter { r with isVerified := v } = build_filter r
    ∧ ∀ ops : List Filter,
        build_filter r = Except.ok (some (Filter.and ops)) →
        ∀ p : Predicate, Filter.leaf p ∈ ops → p.path ≠ ["isVerified"] := by
  refine ⟨rfl, fun ops hops p hp => ?_⟩
  rw [build_filter_eq r] at hops
  simp only [Except.ok.injEq, Option.some.injEq, Filter.and.injEq] at hops
  rw [← hops] at hp
  have hmem : p ∈ search_predicates r := by
    rcases List.mem_map.mp hp with ⟨q, hq, hleaf⟩
    have hqp : q = p := by injection hleaf
    rwa [← hqp]
  rw [search_predicates] at hmem
  rcases List.mem_append.mp hmem with hA | hM
  · rcases mem_attr_predicates_path hA with h | h | h | h | h | h | h | h <;>
      rw [h] <;> decide
  · have hpm : p = is_matched_predicate := by simpa using hM
    rw [hpm]
    decide

/-- Witness for C7 at the sample request. -/
theorem c7_no_is_verified_predicate_witness :
    build_filter { sample_request with isVerified := some false } =
      build_filter sample_request
    ∧ build_filter sample_request =
        Except.ok (some (Filter.and [Filter.leaf is_matched_predicate]))
    ∧ Filter.leaf is_matched_predicate ∈ [Filter.leaf is_matched_predicate]
    ∧ is_matched_predicate.path ≠ ["isVerified"] :=
  ⟨(c7_no_is_verified_predicate sample_request (some false)).1,
   rfl,
   List.mem_singleton.mpr rfl,
   (c7_no_is_verified_predicate sample_request (some false)).2
     [Filter.leaf is_matched_predicate] rfl is_matched_predicate
     (List.mem_singleton.mpr rfl)⟩

/-- Claim C8: the endpoints' request normalization changes only type,
isVerified (and the processed image payload); breed, sex, size, color,
chipNumber, name, location, top and the return-property list reach
query_vector_db with exactly their incoming values. -/
theorem c8_only_normalized_fields_changed (b64 : String) (r : DogSearchRequest) :
    ((found_request b64 r).breed = r.breed
     ∧ (found_request b64 r).sex = r.sex
     ∧ (found_request b64 r).size = r.size
     ∧ (found_request b64 r).color = r.color
     ∧ (found_request b64 r).chipNumber = r.chipNumber
     ∧ (found_request b64 r).name = r.name
     ∧ (found_request b64 r).location = r.location
     ∧ (found_request b64 r).top = r.top
     ∧ (found_request b64 r).return_properties = r.return_properties)
    ∧ ((lost_request b64 r).breed = r.breed
     ∧ (lost_request b64 r).sex = r.sex
     ∧ (lost_request b64 r).size = r.size
     ∧ (lost_request b64 r).color = r.color
     ∧ (lost_request b64 r).chipNumber = r.chipNumber
     ∧ (lost_request b64 r).name = r.name
     ∧ (lost_request b64 r).location = r.location
     ∧ (lost_request b64 r).top = r.top
     ∧ (lost_request b64 r).return_properties = r.return_properties) :=
  ⟨⟨rfl, rfl, rfl, rfl, rfl, rfl, rfl, rfl, rfl⟩,
   ⟨rfl, rfl, rfl, rfl, rfl, rfl, rfl, rfl, rfl⟩⟩

lemma opt_predicate_all_text (field : String) (v : Option String) :
    (opt_predicate field v).all
      (fun p => p.operator == "Equal" && p.path.length == 1
        && p.valueType == FilterValueTypes.valueText) = true := by
  cases v <;> rfl

/-- Claim C10: the operands of the And node built by build_filter appear in
the fixed source order — present attributes as type, breed, sex, size, color,
chipNumber, name, location — followed by the implicit isMatched predicate in
last position; every attribute predicate is an Equal with a single-segment
path and the valueText kind, and the isMatched predicate uses valueBoolean. -/
theorem c10_operand_order_and_value_kinds (r : DogSearchRequest) :
    build_filter r =
      Except.ok (some (Filter.and
        ((attr_predicates r ++ [is_matched_predicate]).map Filter.leaf)))
    ∧ attr_predicates r =
        opt_predicate "type" (r.type.map DogType.value)
        ++ opt_predicate "breed" r.breed
        ++ opt_predicate "sex" (r.sex.map DogSex.value)
        ++ opt_predicate "size" (r.size.map DogSize.value)
        ++ opt_predicate "color" (r.color.map DogColor.value)
        ++ opt_predicate "chipNumber" r.chipNumber
        ++ opt_predicate "name" r.name
        ++ opt_predicate "location" r.location
    ∧ (attr_predicates r).all
        (fun p => p.operator == "Equal" && p.path.length == 1
          && p.valueType == FilterValueTypes.valueText) = true
    ∧ (search_predicates r).getLast? = some is_matched_predicate
    ∧ is_matched_predicate.operator = "Equal"
    ∧ is_matched_predicate.value = FilterValue.boolean false
    ∧ is_matched_predicate.valueType = FilterValueTypes.valueBoolean := by
  refine ⟨build_filter_eq r, rfl, ?_,
    getLast_append_singleton (attr_predicates r) is_matched_predicate,
    rfl, rfl, rfl⟩
  simp [attr_predicates, List.all_append, opt_predicate_all_text]

end DogFinder
